import Mathlib

/-!
Shallow embedding of `src/bot.py` (matcha-bot): a Telegram point-of-sale bot.

Modelling conventions:
* Python `dict`s (the per-user cart, the per-item report summary) are
  insertion-ordered association lists `List (String × Nat)`; assigning to an
  existing key updates it in place, assigning to a fresh key appends at the
  end, `pop` removes the key — exactly the observable behaviour of CPython
  dicts.
* The module-level mutable globals `SALES`, `carts`, `user_names`,
  `user_states` and the per-user `context.user_data["total"]` cache are
  gathered into one record `BotState`; every handler becomes a pure function
  `BotState → BotState × List Out` where `Out` records the outbound
  messages/alerts the handler sends (keyboards are abstracted to tags, the
  texts are reproduced from the source f-strings).
* `ADMIN_IDS` / `USER_IDS` are configuration filled in at deployment time; we
  take them as a parameter `Config`.
* `datetime.now()` readings are threaded through as an opaque `Clock`.
* Strings are processed over their character lists; Python's `str.isdigit`
  is modelled as ASCII `Char.isDigit` (inputs are ASCII digit strings).
-/

namespace MatchaBot

/-- A reading of the wall clock: `datetime.now().isoformat()` and the
`strftime('%d/%m/%Y %H:%M')` rendering used on receipts. -/
structure Clock where
  iso : String
  display : String
deriving DecidableEq, Repr

/-- The two allow-lists `ADMIN_IDS` and `USER_IDS` (bot.py lines 32-33),
filled in at deployment time. -/
structure Config where
  admins : List Nat
  users : List Nat
deriving DecidableEq, Repr

/-- `is_authorized` (bot.py line 61). -/
def is_authorized (cfg : Config) (uid : Nat) : Bool :=
  cfg.admins.contains uid || cfg.users.contains uid

/-- `is_admin` (bot.py line 65). -/
def is_admin (cfg : Config) (uid : Nat) : Bool :=
  cfg.admins.contains uid

/-- A Python dict from item name to quantity, as an insertion-ordered
association list. -/
abbrev Cart := List (String × Nat)

/-- Python `d[k] = v`: update the value in place if the key is present,
otherwise append the new entry at the end. -/
def dictInsert : Cart → String → Nat → Cart
  | [], k, v => [(k, v)]
  | p :: rest, k, v =>
    if p.1 = k then (k, v) :: rest else p :: dictInsert rest k v

/-- Python `d.get(k, 0)`. -/
def dictGet (d : Cart) (k : String) : Nat :=
  (d.lookup k).getD 0

/-- Python `d.setdefault(k, v)` (used by `handle_item_selection`,
bot.py line 365). -/
def dictSetdefault (d : Cart) (k : String) (v : Nat) : Cart :=
  match d.lookup k with
  | some _ => d
  | none => d ++ [(k, v)]

/-- Python `d.pop(k, None)`: remove the entry for `k`. -/
def dictPop (d : Cart) (k : String) : Cart :=
  d.filter (fun p => p.1 != k)

/-- The menu catalog `MENU` (bot.py lines 41-50), in source order. -/
def MENU : List (String × Nat) :=
  [("🍵 Matcha OG", 12000),
   ("🍓 Strawberry Matcha", 16000),
   ("🍪 Matcha Cookies", 16000),
   ("🍫 Choco Matcha", 16000),
   ("☁️ Matcha Cloud", 14000),
   ("🍯 Honey Matcha", 15000),
   ("🥥 Coconut Matcha", 15000),
   ("🍊 Orange Matcha", 14000)]

/-- `MENU[item]` for an item known to be present; `0` otherwise. -/
def menuPrice (item : String) : Nat :=
  (MENU.lookup item).getD 0

/-- State constants (bot.py lines 53-56). -/
def STATE_WAITING_NAME : String := "waiting_name"

def STATE_MENU : String := "menu"

def STATE_SELECTING_PAYMENT : String := "selecting_payment"

def STATE_WAITING_CASH : String := "waiting_cash"

/-- Digits of a decimal numeral with `,` inserted every three digits,
working on the reversed digit list. -/
def insertCommasRev : List Char → List Char
  | a :: b :: c :: d :: rest => a :: b :: c :: ',' :: insertCommasRev (d :: rest)
  | l => l

/-- `format_currency` (bot.py line 69): `f"Rp{amount:,}"`. -/
def format_currency (amount : Nat) : String :=
  "Rp" ++ ⟨(insertCommasRev (Nat.toDigits 10 amount).reverse).reverse⟩

/-- Python `str.replace("Rp", "")`: drop every non-overlapping occurrence of
`Rp`, scanning left to right. -/
def removeRp : List Char → List Char
  | 'R' :: 'p' :: rest => removeRp rest
  | c :: rest => c :: removeRp rest
  | [] => []

/-- Numeric value of a list of ASCII digits (Python `int` on an all-digit
string). -/
def digitsVal (l : List Char) : Nat :=
  l.foldl (fun n c => n * 10 + (c.toNat - 48)) 0

/-- `clean_numeric_input` (bot.py lines 73-81): strip `.`/`,`/spaces, strip
the exact token `Rp`, then accept iff the remainder is a non-empty all-digit
string of at most 10 characters. -/
def clean_numeric_input (text : String) : Option Nat :=
  let cleaned :=
    removeRp (((text.data.filter (fun c => c != '.')).filter
      (fun c => c != ',')).filter (fun c => c != ' '))
  if cleaned ≠ [] ∧ cleaned.all Char.isDigit ∧ cleaned.length ≤ 10 then
    some (digitsVal cleaned)
  else none

/-- `get_cart_total` (bot.py lines 83-85). -/
def get_cart_total (cart : Cart) : Nat :=
  cart.foldl
    (fun acc p =>
      match MENU.lookup p.1 with
      | some price => acc + price * p.2
      | none => acc) 0

/-- The pure cart update performed by `handle_quantity_change`
(bot.py lines 389-404); spec §4.4 calls it `applyCartUpdate`. -/
inductive CartAction where
  | inc
  | dec
deriving DecidableEq, Repr

def applyCartUpdate (cart : Cart) (item : String) (act : CartAction) : Cart :=
  let old_qty := dictGet cart item
  let new_qty :=
    match act with
    | .inc => old_qty + 1
    | .dec => if 0 < old_qty then old_qty - 1 else old_qty
  if new_qty ≠ old_qty then
    if 0 < new_qty then dictInsert cart item new_qty else dictPop cart item
  else cart

/-- Lexicographic code-point order on strings (the order Python's `sorted`
uses on `str`), written so that the kernel can evaluate it. -/
def charListLe : List Char → List Char → Bool
  | [], _ => true
  | _ :: _, [] => false
  | a :: as, b :: bs => if a < b then true else if b < a then false else charListLe as bs

def strLe (a b : String) : Bool :=
  charListLe a.data b.data

/-- Python `text.strip()`: drop leading and trailing whitespace. -/
def pyStrip (s : String) : String :=
  ⟨((s.data.dropWhile Char.isWhitespace).reverse.dropWhile Char.isWhitespace).reverse⟩

/-- Python `str.startswith`. -/
def leadsWith : List Char → List Char → Bool
  | [], _ => true
  | _ :: _, [] => false
  | p :: ps, c :: cs => p == c && leadsWith ps cs

def pyStartsWith (s p : String) : Bool :=
  leadsWith p.data s.data

/-- Split a character list at its first `'_'`: the pieces before and after.
When there is no underscore the whole input is the first piece.  This models
Python's `data.split("_", 1)` at the call sites of bot.py, which are all
guarded by a `startswith` check guaranteeing an underscore. -/
def splitUnderscore : List Char → List Char × List Char
  | [] => ([], [])
  | '_' :: rest => ([], rest)
  | c :: rest =>
    let r := splitUnderscore rest
    (c :: r.1, r.2)

/-- `query.data.split("_", 1)[1]` under a `startswith("..._")` guard. -/
def afterUnderscore (data : String) : String :=
  ⟨(splitUnderscore data.data).2⟩

/-- `query.data.split("_", 1)[0]` under a `startswith` guard. -/
def beforeUnderscore (data : String) : String :=
  ⟨(splitUnderscore data.data).1⟩

/-- `query.data.split("_")[1]`: the segment between the first and second
underscore (used by `handle_payment_method`, bot.py line 456). -/
def secondSegment (data : String) : String :=
  ⟨(splitUnderscore (splitUnderscore data.data).2).1⟩

/-- A ledger entry (bot.py lines 694-701). -/
structure Transaction where
  timestamp : String
  user_id : Nat
  customer_name : String
  items : Cart
  total : Nat
  payment_method : String
deriving DecidableEq, Repr

/-- The inline keyboards, abstracted to tags (the button grids themselves are
render-layer glue; `build_main_menu_keyboard` depends on `is_admin`, so its
tag records that bit). -/
inductive Kb where
  | mainMenu (adminButtons : Bool)
  | itemDetail (item : String)
  | payment
  | adminPanel
  | qris
  | newCustomer
  | backToAdmin
deriving DecidableEq, Repr

/-- One outbound effect of a handler: a fresh reply message, an in-place
message edit, an alert answer to a callback query, or a plain callback
acknowledgement. -/
inductive Out where
  | reply (text : String) (kb : Option Kb)
  | edit (text : String) (kb : Option Kb)
  | alert (text : String)
  | ack (text : String)
deriving DecidableEq, Repr

/-- All module-level mutable state of bot.py (lines 36-39) together with the
per-user `context.user_data["total"]` cache: `SALES`, `carts` (a
`defaultdict(dict)`, so a missing user reads as the empty cart),
`user_names`, `user_states`. -/
structure BotState where
  sales : List Transaction
  carts : Nat → Cart
  user_names : Nat → Option String
  user_states : Nat → Option String
  user_totals : Nat → Option Nat

/-- Point update of a per-user map. -/
def upd {α : Type} (f : Nat → α) (k : Nat) (v : α) : Nat → α :=
  fun x => if x = k then v else f x

/-! ### Message texts (reproduced from the source f-strings) -/

def accessDeniedStartText : String :=
  "🚫 *Akses Ditolak*\n\nAnda tidak memiliki izin untuk menggunakan bot ini."

def welcomeText : String :=
  "🍵 *Selamat Datang di Matcha Kasir Bot!*\n\nUntuk memulai transaksi, silakan masukkan nama pembeli:"

def accessDeniedAdminText : String :=
  "🚫 *Akses Ditolak*\nFitur ini khusus admin."

def adminPanelText : String :=
  "🔧 *Panel Admin*\n\nPilih menu yang diinginkan:"

def genericHintText : String :=
  "ℹ️ Silakan gunakan menu yang tersedia atau ketik /start untuk memulai."

def nameTooShortText : String :=
  "❌ Nama pembeli harus minimal 2 karakter. Silakan masukkan nama yang valid:"

def nameTooLongText : String :=
  "❌ Nama terlalu panjang (maksimal 50 karakter). Silakan masukkan nama yang lebih singkat:"

def nameOkText (name : String) : String :=
  "✅ *Pembeli: " ++ name ++ "*\n\n🏠 *Menu Utama*\nSilakan pilih item yang diinginkan:"

def dataLostReplyText : String :=
  "❌ Error: Data transaksi hilang. Silakan mulai ulang dengan /start"

def invalidFormatText (total : Nat) : String :=
  "❌ Format tidak valid. Masukkan nominal dalam angka.\nContoh: 20000 atau 20.000\n\nTotal yang harus dibayar: "
    ++ format_currency total

def shortageText (cash_amount total : Nat) : String :=
  "💰 *Pembayaran Kurang*\n\nUang diterima: " ++ format_currency cash_amount
    ++ "\nTotal tagihan: " ++ format_currency total
    ++ "\nKekurangan: " ++ format_currency (total - cash_amount)
    ++ "\n\nSilakan masukkan nominal yang cukup:"

def accessDeniedAlertText : String := "🚫 Akses ditolak!"

def itemUnavailableText : String := "❌ Item tidak tersedia!"

def itemText (item : String) (price qty : Nat) : String :=
  "🛍️ *" ++ item ++ "*\n\n💰 Harga: " ++ format_currency price
    ++ "\n🔢 Jumlah: " ++ toString qty
    ++ "\n💵 Subtotal: " ++ format_currency (price * qty)

def cartEmptyText : String := "🛒 Keranjang belanja kosong!"

/-- The `order_lines` comprehension used by `handle_checkout`,
`handle_navigation` and `generate_receipt` (bot.py lines 434-438, 523-527,
714-718 are identical). -/
def orderLines (cart : Cart) : List String :=
  (cart.filter (fun p => (MENU.lookup p.1).isSome)).map
    (fun p => "• " ++ p.1 ++ " x" ++ toString p.2 ++ " = "
      ++ format_currency (menuPrice p.1 * p.2))

def checkoutText (customer_name : String) (cart : Cart) (total : Nat) : String :=
  "🧾 *Ringkasan Pesanan*\n\n👤 Pembeli: " ++ customer_name
    ++ "\n\n🛍️ *Items:*\n" ++ String.intercalate "\n" (orderLines cart)
    ++ "\n\n💰 *Total: " ++ format_currency total
    ++ "*\n\nSilakan pilih metode pembayaran:"

def dataLostAlertText : String := "❌ Error: Data transaksi hilang!"

def cashPromptText (customer_name : String) (total : Nat) : String :=
  "💵 *Pembayaran Tunai*\n\n👤 Pembeli: " ++ customer_name
    ++ "\n💰 Total: " ++ format_currency total
    ++ "\n\nKetik nominal uang yang diterima:"

def qrisPromptText (customer_name : String) (total : Nat) : String :=
  "📱 *Pembayaran QRIS*\n\n👤 Pembeli: " ++ customer_name
    ++ "\n💰 Total: " ++ format_currency total
    ++ "\n\n🔲 Silakan scan QRIS dan konfirmasi pembayaran"

def menuMainText (customer_name : String) : String :=
  "🏠 *Menu Utama*\n👤 Pembeli: " ++ customer_name

def newCustomerText : String :=
  "👥 *Pembeli Baru*\n\nSilakan masukkan nama pembeli selanjutnya:"

def adminOnlyAlertText : String := "🚫 Akses ditolak! Admin only."

def admOnlyAlertText : String := "🚫 Admin only!"

def restartText : String :=
  "🔄 *Bot Direstart*\n\nSilakan masukkan nama pembeli untuk memulai:"

def unknownCmdText : String := "❌ Perintah tidak dikenali."

def noTransactionsText : String :=
  "📊 *Rekap Penjualan*\n\nBelum ada transaksi hari ini."

def resetDoneText : String :=
  "🗑️ *Data Berhasil Direset*\n\nSemua data penjualan dan keranjang telah dihapus."

def transaksiSelesaiText : String := "✅ Transaksi selesai! Silakan pilih:"

/-! ### Sales report (show_sales_report, bot.py lines 602-650) -/

/-- `item_summary[item] += qty` on a `defaultdict(int)`. -/
def dictAdd (d : Cart) (k : String) (v : Nat) : Cart :=
  dictInsert d k (dictGet d k + v)

def summaryFold (acc : Cart) (items : Cart) : Cart :=
  items.foldl (fun a p => dictAdd a p.1 p.2) acc

/-- The `item_summary` accumulated over `SALES` (bot.py lines 611-624): a
`defaultdict(int)`, so entries appear in order of first appearance across the
ledger. -/
def itemSummary (sales : List Transaction) : Cart :=
  sales.foldl (fun acc t => summaryFold acc t.items) []

/-- `(total_revenue, cash_total, qris_total)` accumulated over `SALES` in the
same loop (bot.py lines 616-621); any non-`"Cash"` method counts as QRIS. -/
def reportTotals (sales : List Transaction) : Nat × Nat × Nat :=
  sales.foldl
    (fun acc t =>
      (acc.1 + t.total,
       if t.payment_method == "Cash" then acc.2.1 + t.total else acc.2.1,
       if t.payment_method == "Cash" then acc.2.2 else acc.2.2 + t.total))
    (0, 0, 0)

/-- The entries behind the per-item report lines: `item_summary.items()`
filtered by `if item in MENU` (bot.py lines 627-631). -/
def reportItems (sales : List Transaction) : Cart :=
  (itemSummary sales).filter (fun p => (MENU.lookup p.1).isSome)

def reportItemLines (sales : List Transaction) : List String :=
  (reportItems sales).map
    (fun p => "• " ++ p.1 ++ " x" ++ toString p.2 ++ " = "
      ++ format_currency (menuPrice p.1 * p.2))

/-- `SALES[-5:]` rendered as the recent-transaction digest
(bot.py lines 634-637). -/
def recentLines (sales : List Transaction) : List String :=
  (sales.drop (sales.length - 5)).map
    (fun t => "• " ++ t.customer_name ++ " - " ++ t.payment_method ++ " - "
      ++ format_currency t.total)

def salesReportText (sales : List Transaction) : String :=
  "📊 *Rekap Penjualan Hari Ini*\n\n*Ringkasan Item:*\n"
    ++ String.intercalate "\n" (reportItemLines sales)
    ++ "\n\n📈 Total Transaksi: " ++ toString sales.length
    ++ "\n💵 Cash: " ++ format_currency (reportTotals sales).2.1
    ++ "\n📱 QRIS: " ++ format_currency (reportTotals sales).2.2
    ++ "\n💰 *Total Revenue: " ++ format_currency (reportTotals sales).1
    ++ "*\n\n*5 Transaksi Terakhir:*\n"
    ++ String.intercalate "\n" (recentLines sales)

/-- `'=' * 25` in `generate_receipt`. -/
def receiptSeparator : String := "========================="

/-- `generate_receipt` (bot.py lines 711-738). -/
def generate_receipt (clk : Clock) (customer_name : String) (items : Cart)
    (total : Nat) (method : String) (cash_amount change : Option Nat) : String :=
  "🧾 *STRUK PEMBAYARAN*\n" ++ receiptSeparator
    ++ "\n\n👤 Pembeli: " ++ customer_name
    ++ "\n📅 Waktu: " ++ clk.display
    ++ "\n💳 Metode: " ++ method
    ++ "\n\n🛍️ *Pesanan:*\n" ++ String.intercalate "\n" (orderLines items)
    ++ "\n\n💰 *Total: " ++ format_currency total ++ "*"
    ++ (if method = "Cash" ∧ cash_amount.isSome ∧ change.isSome then
          "\n💵 Tunai: " ++ format_currency (cash_amount.getD 0)
            ++ "\n💸 Kembalian: " ++ format_currency (change.getD 0)
        else "")
    ++ "\n\n✅ *LUNAS*\n" ++ receiptSeparator

/-! ### Handlers -/

/-- `save_transaction` (bot.py lines 692-709): append the ledger entry, clear
the user's cart and set the state tag back to `menu`.  Note that the cached
`context.user_data["total"]` is NOT cleared here. -/
def save_transaction (clk : Clock) (uid : Nat) (customer_name : String)
    (items : Cart) (total : Nat) (method : String) (s : BotState) : BotState :=
  { s with
      sales := s.sales ++
        [{ timestamp := clk.iso, user_id := uid, customer_name := customer_name,
           items := items, total := total, payment_method := method }],
      carts := upd s.carts uid [],
      user_states := upd s.user_states uid (some STATE_MENU) }

/-- `cmd_start` (bot.py lines 163-189), state/output part. -/
def cmd_start (cfg : Config) (uid : Nat) (s : BotState) : BotState × List Out :=
  if is_authorized cfg uid = false then
    (s, [.reply accessDeniedStartText none])
  else
    ({ s with
        user_states := upd s.user_states uid (some STATE_WAITING_NAME),
        carts := upd s.carts uid [],
        user_totals := upd s.user_totals uid none },
     [.reply welcomeText none])

/-- `cmd_admin` (bot.py lines 191-208). -/
def cmd_admin (cfg : Config) (uid : Nat) (s : BotState) : BotState × List Out :=
  if is_admin cfg uid = false then
    (s, [.reply accessDeniedAdminText none])
  else
    (s, [.reply adminPanelText (some .adminPanel)])

/-- `handle_customer_name_input` (bot.py lines 241-270); `name` is the
already-stripped text passed in by `handle_text_input`. -/
def handle_customer_name_input (cfg : Config) (uid : Nat) (name : String)
    (s : BotState) : BotState × List Out :=
  if name = "" ∨ (pyStrip name).length < 2 then
    (s, [.reply nameTooShortText none])
  else if 50 < name.length then
    (s, [.reply nameTooLongText none])
  else
    ({ s with
        user_names := upd s.user_names uid (some (pyStrip name)),
        user_states := upd s.user_states uid (some STATE_MENU) },
     [.reply (nameOkText (pyStrip name)) (some (.mainMenu (is_admin cfg uid)))])

/-- `process_cash_payment` (bot.py lines 672-690). -/
def process_cash_payment (clk : Clock) (uid : Nat) (cash_amount total : Nat)
    (s : BotState) : BotState × List Out :=
  let change := cash_amount - total
  let cart_items := s.carts uid
  let customer_name := (s.user_names uid).getD "Tidak diketahui"
  let s' := save_transaction clk uid customer_name cart_items total "Cash" s
  (s', [.reply (generate_receipt clk customer_name cart_items total "Cash"
          (some cash_amount) (some change)) none,
        .reply transaksiSelesaiText (some .newCustomer)])

/-- `handle_cash_payment_input` (bot.py lines 272-304).  Python's
`if not total:` treats both a missing and a zero cached total as missing. -/
def handle_cash_payment_input (clk : Clock) (uid : Nat) (text : String)
    (s : BotState) : BotState × List Out :=
  match s.user_totals uid with
  | none => (s, [.reply dataLostReplyText none])
  | some 0 => (s, [.reply dataLostReplyText none])
  | some (t + 1) =>
    let total := t + 1
    match clean_numeric_input text with
    | none => (s, [.reply (invalidFormatText total) none])
    | some cash_amount =>
      if cash_amount < total then
        (s, [.reply (shortageText cash_amount total) none])
      else
        process_cash_payment clk uid cash_amount total s

/-- `handle_text_input` (bot.py lines 213-239): strip, authorization check
(unauthorized text is silently dropped, line 219-220), then dispatch on the
state tag. -/
def handle_text_input (cfg : Config) (clk : Clock) (uid : Nat) (raw : String)
    (s : BotState) : BotState × List Out :=
  let text := pyStrip raw
  if is_authorized cfg uid = false then (s, [])
  else if s.user_states uid = some STATE_WAITING_NAME then
    handle_customer_name_input cfg uid text s
  else if s.user_states uid = some STATE_WAITING_CASH then
    handle_cash_payment_input clk uid text s
  else
    (s, [.reply genericHintText none])

/-- `handle_item_selection` (bot.py lines 353-378).  Note line 365:
`carts[uid].setdefault(item, 0)` stores a zero-quantity entry for an item not
yet in the cart. -/
def handle_item_selection (uid : Nat) (data : String) (s : BotState) :
    BotState × List Out :=
  let item := afterUnderscore data
  if (MENU.lookup item).isNone then (s, [.alert itemUnavailableText])
  else
    let cart := dictSetdefault (s.carts uid) item 0
    let price := menuPrice item
    let qty := dictGet cart item
    ({ s with carts := upd s.carts uid cart },
     [.edit (itemText item price qty) (some (.itemDetail item))])

/-- `handle_quantity_change` (bot.py lines 380-419). -/
def handle_quantity_change (uid : Nat) (data : String) (s : BotState) :
    BotState × List Out :=
  let action := beforeUnderscore data
  let item := afterUnderscore data
  if (MENU.lookup item).isNone then (s, [.alert itemUnavailableText])
  else
    let old_qty := dictGet (s.carts uid) item
    let new_qty :=
      if action = "inc" then old_qty + 1
      else if action = "dec" ∧ 0 < old_qty then old_qty - 1
      else old_qty
    if new_qty ≠ old_qty then
      let newCart :=
        if 0 < new_qty then dictInsert (s.carts uid) item new_qty
        else dictPop (s.carts uid) item
      ({ s with carts := upd s.carts uid newCart },
       [.edit (itemText item (menuPrice item) new_qty) (some (.itemDetail item))])
    else
      (s, [.ack ""])

/-- `handle_checkout` (bot.py lines 421-451). -/
def handle_checkout (uid : Nat) (s : BotState) : BotState × List Out :=
  let cart := s.carts uid
  if cart = [] then (s, [.alert cartEmptyText])
  else
    let total := get_cart_total cart
    let customer_name := (s.user_names uid).getD "Tidak diketahui"
    ({ s with
        user_totals := upd s.user_totals uid (some total),
        user_states := upd s.user_states uid (some STATE_SELECTING_PAYMENT) },
     [.edit (checkoutText customer_name cart total) (some .payment)])

/-- `handle_payment_method` (bot.py lines 453-482). -/
def handle_payment_method (uid : Nat) (data : String) (s : BotState) :
    BotState × List Out :=
  let method := secondSegment data
  match s.user_totals uid with
  | none => (s, [.alert dataLostAlertText])
  | some 0 => (s, [.alert dataLostAlertText])
  | some (t + 1) =>
    let total := t + 1
    let customer_name := (s.user_names uid).getD "Tidak diketahui"
    if method = "cash" then
      ({ s with user_states := upd s.user_states uid (some STATE_WAITING_CASH) },
       [.edit (cashPromptText customer_name total) none])
    else if method = "qris" then
      (s, [.edit (qrisPromptText customer_name total) (some .qris)])
    else (s, [])

/-- `handle_qris_completion` (bot.py lines 484-502). -/
def handle_qris_completion (clk : Clock) (uid : Nat) (s : BotState) :
    BotState × List Out :=
  match s.user_totals uid with
  | none => (s, [.alert dataLostAlertText])
  | some 0 => (s, [.alert dataLostAlertText])
  | some (t + 1) =>
    let total := t + 1
    let cart_items := s.carts uid
    let customer_name := (s.user_names uid).getD "Tidak diketahui"
    let s' := save_transaction clk uid customer_name cart_items total "QRIS" s
    (s', [.edit (generate_receipt clk customer_name cart_items total "QRIS" none none)
           (some .newCustomer)])

/-- `handle_restart` (bot.py lines 569-582). -/
def handle_restart (uid : Nat) (s : BotState) : BotState × List Out :=
  ({ s with
      user_names := upd s.user_names uid none,
      carts := upd s.carts uid [],
      user_totals := upd s.user_totals uid none,
      user_states := upd s.user_states uid (some STATE_WAITING_NAME) },
   [.edit restartText none])

/-- `handle_navigation` (bot.py lines 504-538). -/
def handle_navigation (cfg : Config) (uid : Nat) (data : String) (s : BotState) :
    BotState × List Out :=
  if data = "back_to_menu" then
    let customer_name := (s.user_names uid).getD ""
    if customer_name ≠ "" then
      ({ s with user_states := upd s.user_states uid (some STATE_MENU) },
       [.edit (menuMainText customer_name) (some (.mainMenu (is_admin cfg uid)))])
    else
      handle_restart uid s
  else if data = "back_to_payment" then
    let cart := s.carts uid
    let total := (s.user_totals uid).getD 0
    let customer_name := (s.user_names uid).getD "Tidak diketahui"
    ({ s with user_states := upd s.user_states uid (some STATE_SELECTING_PAYMENT) },
     [.edit (checkoutText customer_name cart total) (some .payment)])
  else (s, [])

/-- `handle_new_customer` (bot.py lines 540-553). -/
def handle_new_customer (uid : Nat) (s : BotState) : BotState × List Out :=
  ({ s with
      user_names := upd s.user_names uid none,
      carts := upd s.carts uid [],
      user_totals := upd s.user_totals uid none,
      user_states := upd s.user_states uid (some STATE_WAITING_NAME) },
   [.edit newCustomerText none])

/-- `handle_admin_panel` (bot.py lines 555-567). -/
def handle_admin_panel (cfg : Config) (uid : Nat) (s : BotState) :
    BotState × List Out :=
  if is_admin cfg uid = false then (s, [.alert adminOnlyAlertText])
  else (s, [.edit adminPanelText (some .adminPanel)])

/-- `show_sales_report` (bot.py lines 602-650): a pure read of `SALES`. -/
def show_sales_report (s : BotState) : BotState × List Out :=
  if s.sales = [] then (s, [.edit noTransactionsText (some .backToAdmin)])
  else (s, [.edit (salesReportText s.sales) (some .backToAdmin)])

/-- `reset_all_data` (bot.py lines 652-667): clears `SALES`, `carts`,
`user_names` and `user_states` — everything except the per-user
`context.user_data` caches, which Telegram owns and this function cannot
reach. -/
def reset_all_data (s : BotState) : BotState × List Out :=
  ({ sales := [],
     carts := fun _ => [],
     user_names := fun _ => none,
     user_states := fun _ => none,
     user_totals := s.user_totals },
   [.edit resetDoneText (some .backToAdmin)])

/-- `handle_admin_callbacks` (bot.py lines 587-600). -/
def handle_admin_callbacks (cfg : Config) (uid : Nat) (data : String)
    (s : BotState) : BotState × List Out :=
  if is_admin cfg uid = false then (s, [.alert admOnlyAlertText])
  else if data = "adm_rekap" then show_sales_report s
  else if data = "adm_reset" then reset_all_data s
  else (s, [])

/-- `handle_callback_query` (bot.py lines 309-351): authorization check, then
stringly-typed routing on the payload, then `safe_answer_callback` (line
344) acknowledges every routed event. -/
def handle_callback_query (cfg : Config) (clk : Clock) (uid : Nat)
    (data : String) (s : BotState) : BotState × List Out :=
  if is_authorized cfg uid = false then (s, [.alert accessDeniedAlertText])
  else
    let r :=
      if pyStartsWith data "item_" then handle_item_selection uid data s
      else if pyStartsWith data "inc_" || pyStartsWith data "dec_" then
        handle_quantity_change uid data s
      else if pyStartsWith data "adm_" then handle_admin_callbacks cfg uid data s
      else if data = "checkout" then handle_checkout uid s
      else if pyStartsWith data "pay_" then handle_payment_method uid data s
      else if data = "qris_done" then handle_qris_completion clk uid s
      else if pyStartsWith data "back_" then handle_navigation cfg uid data s
      else if data = "new_customer" then handle_new_customer uid s
      else if data = "admin" then handle_admin_panel cfg uid s
      else if data = "restart" then handle_restart uid s
      else (s, [.alert unknownCmdText])
    (r.1, r.2 ++ [.ack ""])

/-- An inbound event: the `/start` command, the `/admin` command, a free text
line, or a button click carrying an opaque payload. -/
inductive Event where
  | start
  | adminCmd
  | text (content : String)
  | callback (data : String)
deriving DecidableEq, Repr

/-- The top-level step: one inbound event handled by the registered handler
(bot.py lines 802-805). -/
def handleEvent (cfg : Config) (clk : Clock) (uid : Nat) (ev : Event)
    (s : BotState) : BotState × List Out :=
  match ev with
  | .start => cmd_start cfg uid s
  | .adminCmd => cmd_admin cfg uid s
  | .text t => handle_text_input cfg clk uid t s
  | .callback data => handle_callback_query cfg clk uid data s

/-! ### Concrete scenario data used for witnesses and counterexamples -/

/-- A deployment with no admins and one cashier, user id 1. -/
def cashierCfg : Config := ⟨[], [1]⟩

/-- A deployment with admin user id 1 and cashier user id 2. -/
def adminCfg : Config := ⟨[1], [2]⟩

def clock1 : Clock := ⟨"2026-10-12T10:00:00", "12/10/2026 10:00"⟩

def clock2 : Clock := ⟨"2026-10-12T10:05:00", "12/10/2026 10:05"⟩

/-- The all-empty global state at process start. -/
def initialState : BotState :=
  { sales := [], carts := fun _ => [], user_names := fun _ => none,
    user_states := fun _ => none, user_totals := fun _ => none }

/-- A session awaiting cash payment: cashier 1, customer "Budi", two Matcha
OG in the cart, cached total 24000. -/
def waitingCashState : BotState :=
  { sales := [],
    carts := fun u => if u = 1 then [("🍵 Matcha OG", 2)] else [],
    user_names := fun u => if u = 1 then some "Budi" else none,
    user_states := fun u => if u = 1 then some STATE_WAITING_CASH else none,
    user_totals := fun u => if u = 1 then some 24000 else none }

/-- A session sitting in the main menu with one Matcha OG in the cart. -/
def menuSessionState : BotState :=
  { sales := [],
    carts := fun u => if u = 1 then [("🍵 Matcha OG", 1)] else [],
    user_names := fun u => if u = 1 then some "Budi" else none,
    user_states := fun u => if u = 1 then some STATE_MENU else none,
    user_totals := fun _ => none }

/-- What an unauthorized caller receives back, by event kind: commands and
button clicks get a denial notice, but a text line is silently dropped
(bot.py lines 219-220). -/
def deniedOutputs (ev : Event) : List Out :=
  match ev with
  | .start => [.reply accessDeniedStartText none]
  | .adminCmd => [.reply accessDeniedAdminText none]
  | .text _ => []
  | .callback _ => [.alert accessDeniedAlertText]

/-- Outcome of the admin reset button: ledger emptied, every session wiped,
`context.user_data` caches untouched, confirmation rendered with the
admin-panel back button. -/
def adminResetOutcome (cfg : Config) (clk : Clock) (uid : Nat) (s : BotState) : Prop :=
  (handleEvent cfg clk uid (.callback "adm_reset") s).1.sales = [] ∧
  (∀ u, (handleEvent cfg clk uid (.callback "adm_reset") s).1.carts u = [] ∧
        (handleEvent cfg clk uid (.callback "adm_reset") s).1.user_names u = none ∧
        (handleEvent cfg clk uid (.callback "adm_reset") s).1.user_states u = none) ∧
  (handleEvent cfg clk uid (.callback "adm_reset") s).1.user_totals = s.user_totals ∧
  (handleEvent cfg clk uid (.callback "adm_reset") s).2
    = [.edit resetDoneText (some .backToAdmin), .ack ""]

/-- Behaviour of a text line in the `waiting_cash` state with cached total
`t`: unparseable input re-prompts leaving the state untouched, a short
amount reports the shortage leaving the state untouched, and a sufficient
amount finalizes a Cash transaction (via `save_transaction`) and renders the
receipt (with received cash and change) plus the post-transaction
keyboard. -/
def waitingCashOutcome (cfg : Config) (clk : Clock) (uid : Nat) (s : BotState)
    (t : Nat) : Prop :=
  (∀ raw, clean_numeric_input (pyStrip raw) = none →
     handleEvent cfg clk uid (.text raw) s = (s, [.reply (invalidFormatText t) none])) ∧
  (∀ raw amt, clean_numeric_input (pyStrip raw) = some amt → amt < t →
     handleEvent cfg clk uid (.text raw) s = (s, [.reply (shortageText amt t) none])) ∧
  (∀ raw amt, clean_numeric_input (pyStrip raw) = some amt → t ≤ amt →
     handleEvent cfg clk uid (.text raw) s
       = (save_transaction clk uid ((s.user_names uid).getD "Tidak diketahui")
            (s.carts uid) t "Cash" s,
          [.reply (generate_receipt clk ((s.user_names uid).getD "Tidak diketahui")
             (s.carts uid) t "Cash" (some amt) (some (amt - t))) none,
           .reply transaksiSelesaiText (some .newCustomer)]))

/-- Outcome of completing QRIS twice in a row: the first completion keeps the
cached total, clears the cart and sets the state tag to `menu`; the second
then appends a duplicate transaction with an empty snapshot and the same
total. -/
def qrisRepeatOutcome (cfg : Config) (clk1 clk2 : Clock) (uid : Nat)
    (s : BotState) (t : Nat) : Prop :=
  (handleEvent cfg clk1 uid (.callback "qris_done") s).1.user_totals uid = some t ∧
  (handleEvent cfg clk1 uid (.callback "qris_done") s).1.carts uid = [] ∧
  (handleEvent cfg clk1 uid (.callback "qris_done") s).1.user_states uid = some STATE_MENU ∧
  (handleEvent cfg clk2 uid (.callback "qris_done")
      (handleEvent cfg clk1 uid (.callback "qris_done") s).1).1.sales
    = s.sales
      ++ [{ timestamp := clk1.iso, user_id := uid,
            customer_name := (s.user_names uid).getD "Tidak diketahui",
            items := s.carts uid, total := t, payment_method := "QRIS" },
          { timestamp := clk2.iso, user_id := uid,
            customer_name := (s.user_names uid).getD "Tidak diketahui",
            items := [], total := t, payment_method := "QRIS" }]

/-- The amended totals invariant: when finalization immediately follows
checkout (no cart mutation in between), the appended transaction's total
equals the price×quantity sum over its own snapshot — for both the QRIS path
and the cash path. -/
def snapshotTotalOutcome (cfg : Config) (clk clk' : Clock) (uid : Nat)
    (s : BotState) : Prop :=
  (∃ tx : Transaction,
     (handleEvent cfg clk' uid (.callback "qris_done")
         (handleEvent cfg clk uid (.callback "checkout") s).1).1.sales
       = s.sales ++ [tx] ∧
     tx.items = s.carts uid ∧ tx.total = get_cart_total tx.items ∧
     tx.payment_method = "QRIS") ∧
  (∀ raw amt, clean_numeric_input (pyStrip raw) = some amt →
     get_cart_total (s.carts uid) ≤ amt →
     ∃ tx : Transaction,
       (handleEvent cfg clk' uid (.text raw)
           (handleEvent cfg clk uid (.callback "pay_cash")
               (handleEvent cfg clk uid (.callback "checkout") s).1).1).1.sales
         = s.sales ++ [tx] ∧
       tx.items = s.carts uid ∧ tx.total = get_cart_total tx.items ∧
       tx.payment_method = "Cash")

/-! ## Helper lemmas -/

theorem upd_same {α : Type} (f : Nat → α) (k : Nat) (v : α) : upd f k v k = v := by
  simp [upd]

theorem upd_other {α : Type} (f : Nat → α) (k : Nat) (v : α) (x : Nat)
    (h : x ≠ k) : upd f k v x = f x := by
  simp [upd, h]

theorem lookup_dictInsert_self (d : Cart) (k : String) (v : Nat) :
    (dictInsert d k v).lookup k = some v := by
  induction d with
  | nil => simp [dictInsert, List.lookup]
  | cons p rest ih =>
    by_cases h : p.1 = k
    · simp [dictInsert, h, List.lookup]
    · simp only [dictInsert, h, if_false, ite_false]
      rw [List.lookup]
      have : (k == p.1) = false := by
        simp [beq_eq_false_iff_ne]
        exact fun hk => h hk.symm
      simp [this, ih]

theorem lookup_dictInsert_ne (d : Cart) (k : String) (v : Nat) (k' : String)
    (h : k' ≠ k) : (dictInsert d k v).lookup k' = d.lookup k' := by
  induction d with
  | nil =>
    have h1 : (k' == k) = false := by simp [beq_eq_false_iff_ne, h]
    simp [dictInsert, List.lookup, h1]
  | cons p rest ih =>
    obtain ⟨a, b⟩ := p
    by_cases hp : a = k
    · simp only [dictInsert, hp, ite_true]
      rw [List.lookup, List.lookup]
      have h1 : (k' == k) = false := by simp [beq_eq_false_iff_ne, h]
      rw [h1]
    · simp only [dictInsert, hp, ite_false]
      rw [List.lookup, List.lookup]
      cases hk : k' == a with
      | true => simp
      | false => simp [ih]

theorem dictInsert_lookup_self (d : Cart) (k : String) (v : Nat)
    (h : d.lookup k = some v) : dictInsert d k v = d := by
  induction d with
  | nil => simp [List.lookup] at h
  | cons p rest ih =>
    obtain ⟨a, b⟩ := p
    rw [List.lookup] at h
    cases hk : k == a with
    | true =>
      rw [hk] at h
      simp only [Option.some.injEq] at h
      have hk' : a = k := by
        have := (by simpa using hk : k = a)
        exact this.symm
      simp [dictInsert, hk', ← h]
    | false =>
      rw [hk] at h
      simp only at h
      have hk' : ¬ a = k := by
        intro he
        rw [he] at hk
        simp at hk
      simp [dictInsert, hk', ih h]

theorem dictInsert_dictInsert (d : Cart) (k : String) (v w : Nat) :
    dictInsert (dictInsert d k v) k w = dictInsert d k w := by
  induction d with
  | nil => simp [dictInsert]
  | cons p rest ih =>
    by_cases h : p.1 = k
    · simp [dictInsert, h]
    · simp [dictInsert, h, ih]

theorem lookup_none_keys (d : Cart) (k : String) (h : d.lookup k = none) :
    ∀ p ∈ d, p.1 ≠ k := by
  induction d with
  | nil => simp
  | cons p rest ih =>
    rw [List.lookup] at h
    cases hk : k == p.1 with
    | true => rw [hk] at h; simp at h
    | false =>
      rw [hk] at h
      simp only [List.mem_cons]
      rintro q (rfl | hq)
      · intro he
        rw [he] at hk
        simp at hk
      · exact ih h q hq

theorem dictInsert_lookup_none (d : Cart) (k : String) (v : Nat)
    (h : d.lookup k = none) : dictInsert d k v = d ++ [(k, v)] := by
  induction d with
  | nil => simp [dictInsert]
  | cons p rest ih =>
    rw [List.lookup] at h
    cases hk : k == p.1 with
    | true => rw [hk] at h; simp at h
    | false =>
      rw [hk] at h
      have hp : ¬ p.1 = k := by
        intro he
        rw [he] at hk
        simp at hk
      simp [dictInsert, hp, ih h]

theorem lookup_append_single (d : Cart) (k : String) (v : Nat)
    (h : d.lookup k = none) : (d ++ [(k, v)]).lookup k = some v := by
  induction d with
  | nil => simp [List.lookup]
  | cons p rest ih =>
    rw [List.lookup] at h
    cases hk : k == p.1 with
    | true => rw [hk] at h; simp at h
    | false =>
      rw [hk] at h
      rw [List.cons_append, List.lookup, hk]
      exact ih h

theorem dictPop_append_single (d : Cart) (k : String) (v : Nat)
    (h : d.lookup k = none) : dictPop (d ++ [(k, v)]) k = d := by
  have hkeys := lookup_none_keys d k h
  unfold dictPop
  rw [List.filter_append]
  have h1 : List.filter (fun p => p.1 != k) d = d := by
    apply List.filter_eq_self.mpr
    intro p hp
    simp [bne_iff_ne]
    exact hkeys p hp
  have h2 : List.filter (fun p => p.1 != k) [(k, v)] = [] := by
    simp [List.filter]
  rw [h1, h2, List.append_nil]

theorem dictGet_dictInsert_self (d : Cart) (k : String) (v : Nat) :
    dictGet (dictInsert d k v) k = v := by
  simp [dictGet, lookup_dictInsert_self]

theorem dictGet_dictInsert_ne (d : Cart) (k : String) (v : Nat) (k' : String)
    (h : k' ≠ k) : dictGet (dictInsert d k v) k' = dictGet d k' := by
  simp [dictGet, lookup_dictInsert_ne d k v k' h]

theorem leadsWith_iff (p l : List Char) :
    leadsWith p l = true ↔ ∃ t, l = p ++ t := by
  induction p generalizing l with
  | nil => simp [leadsWith]
  | cons a ps ih =>
    cases l with
    | nil =>
      simp [leadsWith]
    | cons b bs =>
      rw [leadsWith]
      simp only [Bool.and_eq_true, beq_iff_eq, ih, List.cons_append,
        List.cons.injEq]
      constructor
      · rintro ⟨rfl, t, rfl⟩
        exact ⟨t, rfl, rfl⟩
      · rintro ⟨t, rfl, rfl⟩
        exact ⟨rfl, t, rfl⟩

/-- A payload starting with `inc_` does not start with `item_`. -/
theorem inc_not_item (data : String) (h : pyStartsWith data "inc_" = true) :
    pyStartsWith data "item_" = false := by
  unfold pyStartsWith at h ⊢
  obtain ⟨t, ht⟩ := (leadsWith_iff _ _).mp h
  rw [ht]
  rw [show ("inc_".data) = ['i', 'n', 'c', '_'] from rfl]
  rw [show ("item_".data) = ['i', 't', 'e', 'm', '_'] from rfl]
  simp [leadsWith, show (('t' : Char) == 'n') = false from by decide]

/-- A payload starting with `dec_` does not start with `item_`. -/
theorem dec_not_item (data : String) (h : pyStartsWith data "dec_" = true) :
    pyStartsWith data "item_" = false := by
  unfold pyStartsWith at h ⊢
  obtain ⟨t, ht⟩ := (leadsWith_iff _ _).mp h
  rw [ht]
  rw [show ("dec_".data) = ['d', 'e', 'c', '_'] from rfl]
  rw [show ("item_".data) = ['i', 't', 'e', 'm', '_'] from rfl]
  simp [leadsWith, show (('i' : Char) == 'd') = false from by decide]

/-- An admin is in particular authorized. -/
theorem is_admin_authorized (cfg : Config) (uid : Nat)
    (h : is_admin cfg uid = true) : is_authorized cfg uid = true := by
  unfold is_admin at h
  simp [is_authorized, h]
  exact Or.inl (by simpa using h)

/-- An unauthorized caller is not an admin. -/
theorem not_authorized_not_admin (cfg : Config) (uid : Nat)
    (h : is_authorized cfg uid = false) : is_admin cfg uid = false := by
  unfold is_authorized at h
  rcases Bool.or_eq_false_iff.mp h with ⟨h1, _⟩
  exact h1

/-- Bound for the digit-length overflow guard: an all-digit string of length
`n` parses to a value below `10 ^ n`. -/
theorem digitsVal_foldl_lt (l : List Char) (acc : Nat)
    (h : ∀ c ∈ l, c.isDigit = true) :
    l.foldl (fun n c => n * 10 + (c.toNat - 48)) acc < (acc + 1) * 10 ^ l.length := by
  induction l generalizing acc with
  | nil => simp
  | cons c cs ih =>
    have hc : c.toNat - 48 ≤ 9 := by
      have hd := h c (List.mem_cons_self c cs)
      unfold Char.isDigit at hd
      simp only [Bool.and_eq_true] at hd
      obtain ⟨_, h2⟩ := hd
      have h2' : c.val ≤ ('9' : Char).val := by simpa [Char.le_def] using h2
      have h3 : c.val.toNat ≤ ('9' : Char).val.toNat := h2'
      have h9 : ('9' : Char).val.toNat = 57 := by decide
      unfold Char.toNat
      omega
    have hrec := ih (acc * 10 + (c.toNat - 48)) (fun x hx => h x (List.mem_cons_of_mem c hx))
    rw [List.foldl_cons]
    calc List.foldl (fun n c => n * 10 + (c.toNat - 48)) (acc * 10 + (c.toNat - 48)) cs
        < (acc * 10 + (c.toNat - 48) + 1) * 10 ^ cs.length := hrec
      _ ≤ ((acc + 1) * 10) * 10 ^ cs.length := by
          apply Nat.mul_le_mul_right
          omega
      _ = (acc + 1) * 10 ^ (c :: cs).length := by
          rw [List.length_cons, pow_succ]
          ring

/-- An all-digit string passing the 10-character guard denotes a value below
`10 ^ 10`. -/
theorem digitsVal_all_le_ten (l : List Char) (hdig : l.all Char.isDigit = true)
    (hlen : l.length ≤ 10) : digitsVal l < 10 ^ 10 := by
  have hall : ∀ c ∈ l, c.isDigit = true := fun c hc => List.all_eq_true.mp hdig c hc
  have hb := digitsVal_foldl_lt l 0 hall
  unfold digitsVal
  calc l.foldl (fun n c => n * 10 + (c.toNat - 48)) 0
      < (0 + 1) * 10 ^ l.length := hb
    _ = 10 ^ l.length := by ring
    _ ≤ 10 ^ 10 := Nat.pow_le_pow_right (by omega) hlen

/-- The parser never returns a value of 11 or more digits. -/
theorem clean_numeric_input_lt (s : String) (n : Nat)
    (h : clean_numeric_input s = some n) : n < 10 ^ 10 := by
  unfold clean_numeric_input at h
  dsimp only at h
  split at h
  · next hcond =>
    obtain ⟨_, hdig, hlen⟩ := hcond
    simp only [Option.some.injEq] at h
    subst h
    exact digitsVal_all_le_ten _ hdig hlen
  · exact absurd h (by simp)

theorem dictGet_dictAdd (d : Cart) (k : String) (v : Nat) (k' : String) :
    dictGet (dictAdd d k v) k' = dictGet d k' + (if k' = k then v else 0) := by
  unfold dictAdd
  by_cases h : k' = k
  · subst h
    rw [dictGet_dictInsert_self]
    simp
  · rw [dictGet_dictInsert_ne _ _ _ _ h]
    simp [h]

theorem summaryFold_get (items : Cart) (acc : Cart) (k : String) :
    dictGet (summaryFold acc items)
        k = dictGet acc k + ((items.filter (fun p => p.1 == k)).map Prod.snd).sum := by
  induction items generalizing acc with
  | nil => simp [summaryFold]
  | cons p rest ih =>
    obtain ⟨a, b⟩ := p
    have hstep : summaryFold acc ((a, b) :: rest) = summaryFold (dictAdd acc a b) rest := by
      simp [summaryFold]
    rw [hstep, ih, dictGet_dictAdd]
    by_cases h : a = k
    · subst h
      simp [List.filter_cons]
      omega
    · have hne : (a == k) = false := by simp [beq_eq_false_iff_ne, h]
      have h' : ¬ k = a := fun he => h he.symm
      simp [List.filter_cons, hne, h']

theorem itemSummary_fold_get (sales : List Transaction) (acc : Cart) (k : String) :
    dictGet (sales.foldl (fun a t => summaryFold a t.items) acc) k
      = dictGet acc k
        + (sales.map (fun t => ((t.items.filter (fun p => p.1 == k)).map Prod.snd).sum)).sum := by
  induction sales generalizing acc with
  | nil => simp
  | cons t rest ih =>
    simp only [List.foldl_cons, List.map_cons, List.sum_cons]
    rw [ih, summaryFold_get]
    omega

/-- The per-item report summary holds, for each item, the quantity of that
item summed across every transaction's snapshot. -/
theorem itemSummary_get (sales : List Transaction) (k : String) :
    dictGet (itemSummary sales) k
      = (sales.map (fun t => ((t.items.filter (fun p => p.1 == k)).map Prod.snd).sum)).sum := by
  have h := itemSummary_fold_get sales [] k
  unfold itemSummary
  rw [h]
  simp [dictGet, List.lookup]

/-! ### Routing lemmas for `handle_callback_query` on the payloads the
claims exercise -/

theorem dispatch_checkout (cfg : Config) (clk : Clock) (uid : Nat) (s : BotState)
    (h : is_authorized cfg uid = true) :
    handle_callback_query cfg clk uid "checkout" s
      = ((handle_checkout uid s).1, (handle_checkout uid s).2 ++ [Out.ack ""]) := by
  unfold handle_callback_query
  rw [h]
  rfl

theorem dispatch_qris_done (cfg : Config) (clk : Clock) (uid : Nat) (s : BotState)
    (h : is_authorized cfg uid = true) :
    handle_callback_query cfg clk uid "qris_done" s
      = ((handle_qris_completion clk uid s).1,
         (handle_qris_completion clk uid s).2 ++ [Out.ack ""]) := by
  unfold handle_callback_query
  rw [h]
  rfl

theorem dispatch_pay_cash (cfg : Config) (clk : Clock) (uid : Nat) (s : BotState)
    (h : is_authorized cfg uid = true) :
    handle_callback_query cfg clk uid "pay_cash" s
      = ((handle_payment_method uid "pay_cash" s).1,
         (handle_payment_method uid "pay_cash" s).2 ++ [Out.ack ""]) := by
  unfold handle_callback_query
  rw [h]
  rfl

theorem dispatch_adm_reset (cfg : Config) (clk : Clock) (uid : Nat) (s : BotState)
    (h : is_authorized cfg uid = true) :
    handle_callback_query cfg clk uid "adm_reset" s
      = ((handle_admin_callbacks cfg uid "adm_reset" s).1,
         (handle_admin_callbacks cfg uid "adm_reset" s).2 ++ [Out.ack ""]) := by
  unfold handle_callback_query
  rw [h]
  rfl

theorem dispatch_adm_rekap (cfg : Config) (clk : Clock) (uid : Nat) (s : BotState)
    (h : is_authorized cfg uid = true) :
    handle_callback_query cfg clk uid "adm_rekap" s
      = ((handle_admin_callbacks cfg uid "adm_rekap" s).1,
         (handle_admin_callbacks cfg uid "adm_rekap" s).2 ++ [Out.ack ""]) := by
  unfold handle_callback_query
  rw [h]
  rfl

theorem dispatch_quantity (cfg : Config) (clk : Clock) (uid : Nat) (data : String)
    (s : BotState) (hauth : is_authorized cfg uid = true)
    (h : pyStartsWith data "inc_" = true ∨ pyStartsWith data "dec_" = true) :
    handle_callback_query cfg clk uid data s
      = ((handle_quantity_change uid data s).1,
         (handle_quantity_change uid data s).2 ++ [Out.ack ""]) := by
  have hitem : pyStartsWith data "item_" = false := by
    rcases h with h | h
    · exact inc_not_item data h
    · exact dec_not_item data h
  have h2 : (pyStartsWith data "inc_" || pyStartsWith data "dec_") = true := by
    rcases h with h | h <;> simp [h]
  unfold handle_callback_query
  rw [hauth]
  simp only [hitem, h2, Bool.false_eq_true, Bool.true_eq_false, if_false,
    if_true, ite_true, ite_false]

theorem mem_dictInsert (d : Cart) (k : String) (v : Nat) (p : String × Nat)
    (h : p ∈ dictInsert d k v) : p = (k, v) ∨ p ∈ d := by
  induction d with
  | nil => simpa [dictInsert] using h
  | cons q rest ih =>
    obtain ⟨a, b⟩ := q
    by_cases ha : a = k
    · simp only [dictInsert, ha, ite_true, List.mem_cons] at h
      rcases h with h | h
      · exact Or.inl h
      · exact Or.inr (List.mem_cons_of_mem _ h)
    · simp only [dictInsert, ha, ite_false, List.mem_cons] at h
      rcases h with h | h
      · exact Or.inr (by simp [h])
      · rcases ih h with h | h
        · exact Or.inl h
        · exact Or.inr (List.mem_cons_of_mem _ h)

theorem text_waiting_cash (cfg : Config) (clk : Clock) (uid : Nat) (raw : String)
    (s : BotState) (hauth : is_authorized cfg uid = true)
    (hstate : s.user_states uid = some STATE_WAITING_CASH) :
    handle_text_input cfg clk uid raw s
      = handle_cash_payment_input clk uid (pyStrip raw) s := by
  unfold handle_text_input
  rw [hauth, hstate]
  rfl

theorem admin_cb_reset (cfg : Config) (uid : Nat) (s : BotState)
    (hadm : is_admin cfg uid = true) :
    handle_admin_callbacks cfg uid "adm_reset" s = reset_all_data s := by
  unfold handle_admin_callbacks
  rw [hadm]
  rfl

theorem admin_cb_rekap (cfg : Config) (uid : Nat) (s : BotState)
    (hadm : is_admin cfg uid = true) :
    handle_admin_callbacks cfg uid "adm_rekap" s = show_sales_report s := by
  unfold handle_admin_callbacks
  rw [hadm]
  rfl

theorem checkout_result (cfg : Config) (clk : Clock) (uid : Nat) (s : BotState)
    (hauth : is_authorized cfg uid = true) (hne : s.carts uid ≠ []) :
    (handleEvent cfg clk uid (.callback "checkout") s).1
      = { s with
            user_totals := upd s.user_totals uid (some (get_cart_total (s.carts uid))),
            user_states := upd s.user_states uid (some STATE_SELECTING_PAYMENT) } := by
  simp only [handleEvent]
  rw [dispatch_checkout cfg clk uid s hauth]
  unfold handle_checkout
  rw [if_neg hne]

theorem pay_cash_result (cfg : Config) (clk : Clock) (uid : Nat) (s : BotState) (t : Nat)
    (hauth : is_authorized cfg uid = true)
    (htot : s.user_totals uid = some (t + 1)) :
    (handleEvent cfg clk uid (.callback "pay_cash") s).1
      = { s with user_states := upd s.user_states uid (some STATE_WAITING_CASH) } := by
  simp only [handleEvent]
  rw [dispatch_pay_cash cfg clk uid s hauth]
  unfold handle_payment_method
  rw [htot]
  rfl

theorem qris_result (cfg : Config) (clk : Clock) (uid : Nat) (s : BotState) (t : Nat)
    (hauth : is_authorized cfg uid = true)
    (htot : s.user_totals uid = some (t + 1)) :
    handleEvent cfg clk uid (.callback "qris_done") s
      = (save_transaction clk uid ((s.user_names uid).getD "Tidak diketahui")
           (s.carts uid) (t + 1) "QRIS" s,
         [Out.edit (generate_receipt clk ((s.user_names uid).getD "Tidak diketahui")
            (s.carts uid) (t + 1) "QRIS" none none) (some Kb.newCustomer), Out.ack ""]) := by
  simp only [handleEvent]
  rw [dispatch_qris_done cfg clk uid s hauth]
  unfold handle_qris_completion
  rw [htot]
  rfl

theorem cash_text_result (cfg : Config) (clk : Clock) (uid : Nat) (raw : String)
    (s : BotState) (t : Nat) (hauth : is_authorized cfg uid = true)
    (hstate : s.user_states uid = some STATE_WAITING_CASH)
    (htot : s.user_totals uid = some (t + 1)) (amt : Nat)
    (hparse : clean_numeric_input (pyStrip raw) = some amt) (hge : t + 1 ≤ amt) :
    handleEvent cfg clk uid (.text raw) s
      = (save_transaction clk uid ((s.user_names uid).getD "Tidak diketahui")
           (s.carts uid) (t + 1) "Cash" s,
         [Out.reply (generate_receipt clk ((s.user_names uid).getD "Tidak diketahui")
            (s.carts uid) (t + 1) "Cash" (some amt) (some (amt - (t + 1)))) none,
          Out.reply transaksiSelesaiText (some Kb.newCustomer)]) := by
  simp only [handleEvent]
  rw [text_waiting_cash cfg clk uid raw s hauth hstate]
  unfold handle_cash_payment_input
  rw [htot]
  dsimp only
  rw [hparse]
  dsimp only
  rw [if_neg (by omega : ¬ amt < t + 1)]
  rfl

/-- C6 counterexample: the claim requires a case-insensitive currency prefix
and a fewer-than-10-digit guard, but the code strips only the exact token
`Rp` and accepts up to 10 digits (`len(clean_text) <= 10`):
`clean_numeric_input "1234567890"` (exactly 10 digits) parses, and
`"rp 20000"` does not. -/
theorem C6_counterexample :
    clean_numeric_input "1234567890" = some 1234567890 ∧
    clean_numeric_input "rp 20000" = none := ⟨by decide, by decide⟩

/-- C6 amended: the parser strips `.`/`,`/spaces and every occurrence of the
exact, case-sensitive token `Rp`, then returns the integer exactly when the
remainder is non-empty, all digits, and at most 10 digits long; the spec's
four examples hold, an 11-digit input is rejected, and every accepted value
is below `10 ^ 10`. -/
theorem C6_amended :
    clean_numeric_input "20.000" = some 20000 ∧
    clean_numeric_input "Rp 20000" = some 20000 ∧
    clean_numeric_input "abc" = none ∧
    clean_numeric_input "99999999999" = none ∧
    clean_numeric_input "12345678901" = none ∧
    ∀ s n, clean_numeric_input s = some n → n < 10 ^ 10 := by
  refine ⟨by decide, by decide, by decide, by decide, by decide, ?_⟩
  exact clean_numeric_input_lt

theorem C6_amended_witness :
    clean_numeric_input "3000" = some 3000 ∧ (3000 : Nat) < 10 ^ 10 :=
  ⟨by decide, C6_amended.2.2.2.2.2 "3000" 3000 (by decide)⟩

/-- C8: for every cart `C` and item `X`, incrementing `X` and then
decrementing `X` yields a cart equal to `C`, for any starting quantity of
`X` including 0 — where, per the claim's own parenthetical, quantity 0 means
`X` is absent from the cart dict. -/
theorem C8_inc_dec_roundtrip (C : Cart) (X : String)
    (h : C.lookup X = none ∨ ∃ q, C.lookup X = some (q + 1)) :
    applyCartUpdate (applyCartUpdate C X .inc) X .dec = C := by
  rcases h with h | ⟨q, h⟩
  · have h0 : dictGet C X = 0 := by simp [dictGet, h]
    have step1 : applyCartUpdate C X .inc = C ++ [(X, 1)] := by
      simp only [applyCartUpdate, h0]
      norm_num
      exact dictInsert_lookup_none C X 1 h
    have hlook : dictGet (C ++ [(X, 1)]) X = 1 := by
      simp [dictGet, lookup_append_single C X 1 h]
    have step2 : applyCartUpdate (C ++ [(X, 1)]) X .dec = C := by
      simp only [applyCartUpdate, hlook]
      norm_num
      exact dictPop_append_single C X 1 h
    rw [step1, step2]
  · have h0 : dictGet C X = q + 1 := by simp [dictGet, h]
    have step1 : applyCartUpdate C X .inc = dictInsert C X (q + 2) := by
      simp only [applyCartUpdate, h0]
      norm_num
    have hlook : dictGet (dictInsert C X (q + 2)) X = q + 2 :=
      dictGet_dictInsert_self C X (q + 2)
    have step2 : applyCartUpdate (dictInsert C X (q + 2)) X .dec = C := by
      simp only [applyCartUpdate, hlook]
      norm_num
      rw [dictInsert_dictInsert]
      exact dictInsert_lookup_self C X (q + 1) h
    rw [step1, step2]


theorem C8_inc_dec_roundtrip_witness :
    (([("🍵 Matcha OG", 2)] : Cart).lookup "🍓 Strawberry Matcha" = none ∨
       ∃ q, ([("🍵 Matcha OG", 2)] : Cart).lookup "🍓 Strawberry Matcha" = some (q + 1)) ∧
    applyCartUpdate (applyCartUpdate [("🍵 Matcha OG", 2)] "🍓 Strawberry Matcha" .inc)
        "🍓 Strawberry Matcha" .dec = [("🍵 Matcha OG", 2)] :=
  ⟨Or.inl (by decide), C8_inc_dec_roundtrip _ _ (Or.inl (by decide))⟩

/-- C2 counterexample: from a fresh session, `/start`, then the name "Budi",
then selecting a menu item runs `carts[uid].setdefault(item, 0)`
(bot.py line 365), so the reachable cart stores an entry with quantity 0,
violating the claimed invariant that no entry has quantity ≤ 0. -/
theorem C2_counterexample :
    (let s1 := (handleEvent cashierCfg clock1 1 .start initialState).1
     let s2 := (handleEvent cashierCfg clock1 1 (.text "Budi") s1).1
     let s3 := (handleEvent cashierCfg clock1 1 (.callback "item_🍵 Matcha OG") s2).1
     s3.carts 1 = [("🍵 Matcha OG", 0)]) := by
  decide

/-- C2 amended: the increment/decrement update never stores a non-positive
quantity (a quantity reaching 0 removes the entry), so it preserves
all-entries-positive; item selection however inserts a zero-quantity
placeholder, so the invariant that actually holds on reachable carts is
quantity ≥ 0, not quantity > 0. -/
theorem C2_amended (cart : Cart) (item : String) (act : CartAction)
    (h : ∀ p ∈ cart, 0 < p.2) :
    ∀ p ∈ applyCartUpdate cart item act, 0 < p.2 := by
  intro p hp
  cases act <;>
    (unfold applyCartUpdate at hp
     dsimp only at hp
     repeat' split at hp) <;>
    first
      | exact h p hp
      | exact h p (List.mem_of_mem_filter hp)
      | (rcases mem_dictInsert _ _ _ _ hp with rfl | hmem
         · simp_all
         · exact h p hmem)

theorem C2_amended_witness :
    (∀ p ∈ ([("🍵 Matcha OG", 1)] : Cart), 0 < p.2) ∧
    ∀ p ∈ applyCartUpdate [("🍵 Matcha OG", 1)] "🍵 Matcha OG" .dec, 0 < p.2 :=
  ⟨by decide, C2_amended [("🍵 Matcha OG", 1)] "🍵 Matcha OG" .dec (by decide)⟩

/-- C4 counterexample: an unauthorized caller's text line is dropped with no
output at all (bot.py lines 219-220 `return` silently) — state is unchanged,
but the access-denied notice the claim requires is never sent. -/
theorem C4_counterexample :
    (handleEvent adminCfg clock1 3 (.text "hello") initialState).1 = initialState ∧
    (handleEvent adminCfg clock1 3 (.text "hello") initialState).2 = [] :=
  ⟨rfl, rfl⟩

/-- C4 amended: for every inbound event from a caller in neither allow-list
the state is completely unchanged; commands and button clicks are answered
with an access-denied notice, but a plain text line is silently ignored
with no notice. -/
theorem C4_amended (cfg : Config) (clk : Clock) (uid : Nat) (ev : Event)
    (s : BotState) (h : is_authorized cfg uid = false) :
    handleEvent cfg clk uid ev s = (s, deniedOutputs ev) := by
  have hadm := not_authorized_not_admin cfg uid h
  cases ev with
  | start => simp [handleEvent, cmd_start, h, deniedOutputs]
  | adminCmd => simp [handleEvent, cmd_admin, hadm, deniedOutputs]
  | text t => simp [handleEvent, handle_text_input, h, deniedOutputs]
  | callback d => simp [handleEvent, handle_callback_query, h, deniedOutputs]

theorem C4_amended_witness :
    is_authorized adminCfg 3 = false ∧
    handleEvent adminCfg clock1 3 (.callback "checkout") initialState
      = (initialState, deniedOutputs (.callback "checkout")) :=
  ⟨by decide, C4_amended adminCfg clock1 3 (.callback "checkout") initialState (by decide)⟩

/-- C10: the routing of an `inc_`/`dec_` button click and the resulting cart
mutation never consult the session's state tag: two global states identical
except for the whole `user_states` map produce identical cart maps, so cart
mutation is possible in every state, including after checkout has cached a
total. -/
theorem C10_state_independent (cfg : Config) (clk : Clock) (uid : Nat)
    (data : String) (s : BotState) (st1 st2 : Nat → Option String)
    (hauth : is_authorized cfg uid = true)
    (h : pyStartsWith data "inc_" = true ∨ pyStartsWith data "dec_" = true) :
    (handleEvent cfg clk uid (.callback data) { s with user_states := st1 }).1.carts
      = (handleEvent cfg clk uid (.callback data) { s with user_states := st2 }).1.carts := by
  simp only [handleEvent]
  rw [dispatch_quantity cfg clk uid data _ hauth h,
      dispatch_quantity cfg clk uid data _ hauth h]
  unfold handle_quantity_change
  dsimp only
  repeat' split
  all_goals rfl

theorem C10_state_independent_witness :
    is_authorized cashierCfg 1 = true ∧
    pyStartsWith "inc_🍵 Matcha OG" "inc_" = true ∧
    (handleEvent cashierCfg clock1 1 (.callback "inc_🍵 Matcha OG")
        { initialState with user_states := fun _ => some STATE_MENU }).1.carts
      = (handleEvent cashierCfg clock1 1 (.callback "inc_🍵 Matcha OG")
          { initialState with user_states := fun _ => some STATE_SELECTING_PAYMENT }).1.carts :=
  ⟨by decide, by decide,
   C10_state_independent cashierCfg clock1 1 "inc_🍵 Matcha OG" initialState
     (fun _ => some STATE_MENU) (fun _ => some STATE_SELECTING_PAYMENT)
     (by decide) (Or.inl (by decide))⟩

/-- C3 counterexample: the admin reset clears not only the ledger but also
cashier 2's cart, customer name and state tag (`reset_all_data` clears
`carts`, `user_names` and `user_states` wholesale, bot.py lines 656-659),
contradicting the claim that individual sessions are left unchanged. -/
theorem C3_counterexample :
    (let s0 : BotState :=
       { sales := [⟨"t0", 2, "Budi", [("🍵 Matcha OG", 1)], 12000, "Cash"⟩],
         carts := fun u => if u = 2 then [("🍵 Matcha OG", 1)] else [],
         user_names := fun u => if u = 2 then some "Budi" else none,
         user_states := fun u => if u = 2 then some STATE_MENU else none,
         user_totals := fun _ => none }
     let s1 := (handleEvent adminCfg clock1 1 (.callback "adm_reset") s0).1
     s1.sales = [] ∧ s1.carts 2 ≠ s0.carts 2 ∧ s1.user_names 2 ≠ s0.user_names 2
       ∧ s1.user_states 2 ≠ s0.user_states 2) := by
  decide

/-- C3 amended: the admin "reset data" action empties the ledger AND wipes
every user's cart, customer name and state tag (only the per-user
`context.user_data` caches, which the function cannot reach, survive); the
confirmation is rendered with the back-to-admin keyboard. -/
theorem C3_amended (cfg : Config) (clk : Clock) (uid : Nat) (s : BotState)
    (hadm : is_admin cfg uid = true) :
    adminResetOutcome cfg clk uid s := by
  have hauth := is_admin_authorized cfg uid hadm
  unfold adminResetOutcome
  simp only [handleEvent]
  rw [dispatch_adm_reset cfg clk uid s hauth, admin_cb_reset cfg uid s hadm]
  exact ⟨rfl, fun u => ⟨rfl, rfl, rfl⟩, rfl, rfl⟩

theorem C3_amended_witness :
    is_admin adminCfg 1 = true ∧ adminResetOutcome adminCfg clock1 1 initialState :=
  ⟨by decide, C3_amended adminCfg clock1 1 initialState (by decide)⟩

/-- C7 counterexample: a ledger whose first transaction snapshots Matcha OG
and whose second snapshots Strawberry Matcha yields report item lines in
first-appearance order — Matcha OG before Strawberry Matcha — which is not
sorted by item name (🍓 sorts before 🍵 in code-point order); the summary is
a `defaultdict` iterated in insertion order, never sorted. -/
theorem C7_counterexample :
    (let sales := [Transaction.mk "t1" 1 "A" [("🍵 Matcha OG", 1)] 12000 "Cash",
                   Transaction.mk "t2" 1 "B" [("🍓 Strawberry Matcha", 1)] 16000 "QRIS"]
     (reportItems sales).map Prod.fst = ["🍵 Matcha OG", "🍓 Strawberry Matcha"] ∧
     ¬ List.Pairwise (fun a b => strLe a b = true) ((reportItems sales).map Prod.fst)) := by
  decide

/-- C7 amended: generating the sales report leaves the global state — in
particular the ledger — unchanged, and the reported per-item quantity is the
sum of that item's quantities across all transactions' snapshots; the item
lines appear in order of first appearance across the ledger, not sorted by
name. -/
theorem C7_amended (cfg : Config) (clk : Clock) (uid : Nat) (s : BotState)
    (k : String) (hadm : is_admin cfg uid = true) :
    (handleEvent cfg clk uid (.callback "adm_rekap") s).1 = s ∧
    dictGet (itemSummary s.sales) k
      = (s.sales.map
          (fun t => ((t.items.filter (fun p => p.1 == k)).map Prod.snd).sum)).sum := by
  constructor
  · have hauth := is_admin_authorized cfg uid hadm
    simp only [handleEvent]
    rw [dispatch_adm_rekap cfg clk uid s hauth, admin_cb_rekap cfg uid s hadm]
    unfold show_sales_report
    split <;> rfl
  · exact itemSummary_get s.sales k

theorem C7_amended_witness :
    is_admin adminCfg 1 = true ∧
    ((handleEvent adminCfg clock1 1 (.callback "adm_rekap") initialState).1 = initialState ∧
     dictGet (itemSummary initialState.sales) "🍵 Matcha OG"
       = (initialState.sales.map
           (fun t => ((t.items.filter (fun p => p.1 == "🍵 Matcha OG")).map Prod.snd).sum)).sum) :=
  ⟨by decide, C7_amended adminCfg clock1 1 initialState "🍵 Matcha OG" (by decide)⟩

/-- C5: in state `waiting_cash` with a positive cached total `t`, an
unparseable text re-prompts and changes nothing; a parsed amount below `t`
reports a shortage of `t − amount` and changes nothing; a parsed amount
`≥ t` finalizes a Cash transaction through `save_transaction`, rendering the
receipt with cash-received = amount and change = amount − t followed by the
post-transaction (new-customer) keyboard — the code realizes the spec's
PostTransaction view as state tag `menu` plus that keyboard. -/
theorem C5_waiting_cash (cfg : Config) (clk : Clock) (uid : Nat) (s : BotState)
    (t : Nat) (hauth : is_authorized cfg uid = true)
    (hstate : s.user_states uid = some STATE_WAITING_CASH)
    (htot : s.user_totals uid = some t) (hpos : 0 < t) :
    waitingCashOutcome cfg clk uid s t := by
  obtain ⟨t', rfl⟩ : ∃ t', t = t' + 1 := ⟨t - 1, by omega⟩
  unfold waitingCashOutcome
  refine ⟨?_, ?_, ?_⟩
  · intro raw hparse
    simp only [handleEvent]
    rw [text_waiting_cash cfg clk uid raw s hauth hstate]
    unfold handle_cash_payment_input
    rw [htot]
    dsimp only
    rw [hparse]
  · intro raw amt hparse hlt
    simp only [handleEvent]
    rw [text_waiting_cash cfg clk uid raw s hauth hstate]
    unfold handle_cash_payment_input
    rw [htot]
    dsimp only
    rw [hparse]
    dsimp only
    rw [if_pos hlt]
  · intro raw amt hparse hge
    exact cash_text_result cfg clk uid raw s t' hauth hstate htot amt hparse hge

theorem C5_waiting_cash_witness :
    is_authorized cashierCfg 1 = true ∧
    waitingCashState.user_states 1 = some STATE_WAITING_CASH ∧
    waitingCashState.user_totals 1 = some 24000 ∧ (0 : Nat) < 24000 ∧
    waitingCashOutcome cashierCfg clock1 1 waitingCashState 24000 :=
  ⟨by decide, by decide, by decide, by decide,
   C5_waiting_cash cashierCfg clock1 1 waitingCashState 24000
     (by decide) (by decide) (by decide) (by decide)⟩

/-- C9: `save_transaction` clears the user's cart and sets the state tag to
`menu` but leaves the cached pending total untouched, so after a completed
QRIS payment a repeated "payment done" click passes the missing-total guard
and appends a second ledger transaction with an empty item snapshot and the
same total. -/
theorem C9_double_qris (cfg : Config) (clk1 clk2 : Clock) (uid : Nat)
    (s : BotState) (t : Nat) (hauth : is_authorized cfg uid = true)
    (htot : s.user_totals uid = some t) (hpos : 0 < t) :
    qrisRepeatOutcome cfg clk1 clk2 uid s t := by
  obtain ⟨t', rfl⟩ : ∃ t', t = t' + 1 := ⟨t - 1, by omega⟩
  unfold qrisRepeatOutcome
  rw [qris_result cfg clk1 uid s t' hauth htot]
  refine ⟨htot, upd_same _ _ _, upd_same _ _ _, ?_⟩
  dsimp only
  have htot2 : (save_transaction clk1 uid ((s.user_names uid).getD "Tidak diketahui")
      (s.carts uid) (t' + 1) "QRIS" s).user_totals uid = some (t' + 1) := htot
  rw [qris_result cfg clk2 uid _ t' hauth htot2]
  unfold save_transaction
  dsimp only
  rw [upd_same]
  simp [List.append_assoc]

theorem C9_double_qris_witness :
    is_authorized cashierCfg 1 = true ∧
    waitingCashState.user_totals 1 = some 24000 ∧
    qrisRepeatOutcome cashierCfg clock1 clock2 1 waitingCashState 24000 :=
  ⟨by decide, by decide,
   C9_double_qris cashierCfg clock1 clock2 1 waitingCashState 24000
     (by decide) (by decide) (by decide)⟩

/-- C1 counterexample: checkout caches total 12000 for a cart holding one
Matcha OG; an `inc` click — still routed while the session is selecting a
payment method — raises the cart to quantity 2; QRIS completion then
snapshots the mutated cart against the stale cached total, appending a
transaction whose total is 12000 while its own snapshot sums to 24000. -/
theorem C1_counterexample :
    (let s1 := (handleEvent cashierCfg clock1 1 (.callback "checkout") menuSessionState).1
     let s2 := (handleEvent cashierCfg clock1 1 (.callback "inc_🍵 Matcha OG") s1).1
     let s3 := (handleEvent cashierCfg clock2 1 (.callback "qris_done") s2).1
     s3.sales.map (fun t => (t.total, get_cart_total t.items)) = [(12000, 24000)]) := by
  decide

/-- C1 amended: the appended transaction's total is the cart total cached at
checkout time; it equals the price×quantity sum over the transaction's own
snapshot whenever finalization (QRIS or Cash) follows checkout with no cart
mutation in between. -/
theorem C1_amended (cfg : Config) (clk clk' : Clock) (uid : Nat) (s : BotState)
    (hauth : is_authorized cfg uid = true)
    (hpos : 0 < get_cart_total (s.carts uid)) :
    snapshotTotalOutcome cfg clk clk' uid s := by
  have hne : s.carts uid ≠ [] := by
    intro he
    rw [he] at hpos
    simp [get_cart_total] at hpos
  have hck := checkout_result cfg clk uid s hauth hne
  obtain ⟨t', ht'⟩ : ∃ t', get_cart_total (s.carts uid) = t' + 1 :=
    ⟨get_cart_total (s.carts uid) - 1, by omega⟩
  have htot1 : (upd s.user_totals uid (some (get_cart_total (s.carts uid)))) uid
      = some (t' + 1) := by
    rw [upd_same, ht']
  unfold snapshotTotalOutcome
  constructor
  · rw [hck]
    rw [qris_result cfg clk' uid _ t' hauth htot1]
    refine ⟨{ timestamp := clk'.iso, user_id := uid,
              customer_name := (s.user_names uid).getD "Tidak diketahui",
              items := s.carts uid, total := t' + 1, payment_method := "QRIS" },
            rfl, rfl, ht'.symm, rfl⟩
  · intro raw amt hparse hge
    rw [hck]
    set s1 : BotState :=
      { s with
          user_totals := upd s.user_totals uid (some (get_cart_total (s.carts uid))),
          user_states := upd s.user_states uid (some STATE_SELECTING_PAYMENT) } with hs1
    have h1 : s1.user_totals uid = some (t' + 1) := by
      rw [hs1]
      exact htot1
    rw [pay_cash_result cfg clk uid s1 t' hauth h1]
    set s2 : BotState :=
      { s1 with user_states := upd s1.user_states uid (some STATE_WAITING_CASH) } with hs2
    have h2state : s2.user_states uid = some STATE_WAITING_CASH := by
      rw [hs2]
      exact upd_same _ _ _
    have h2tot : s2.user_totals uid = some (t' + 1) := by
      rw [hs2]
      exact h1
    have hge2 : t' + 1 ≤ amt := by omega
    rw [cash_text_result cfg clk' uid raw s2 t' hauth h2state h2tot amt hparse hge2]
    have hc2 : s2.carts = s.carts := by rw [hs2, hs1]
    have hsales2 : s2.sales = s.sales := by rw [hs2, hs1]
    refine ⟨{ timestamp := clk'.iso, user_id := uid,
              customer_name := (s2.user_names uid).getD "Tidak diketahui",
              items := s2.carts uid, total := t' + 1, payment_method := "Cash" },
            ?_, ?_, ?_, rfl⟩
    · unfold save_transaction
      dsimp only
    · rw [hc2]
    · dsimp only
      rw [hc2]
      exact ht'.symm

theorem C1_amended_witness :
    is_authorized cashierCfg 1 = true ∧
    0 < get_cart_total (menuSessionState.carts 1) ∧
    snapshotTotalOutcome cashierCfg clock1 clock2 1 menuSessionState :=
  ⟨by decide, by decide,
   C1_amended cashierCfg clock1 clock2 1 menuSessionState (by decide) (by decide)⟩

end MatchaBot
